import Mathlib

/-!
Shallow embedding of a React form component library (form context, field-error
state, schema-driven input components) together with proofs about its error
handling, prop resolution and rendering behaviour.

Maps held as JavaScript objects (`Record<string, string>`) are embedded as
functions `String → Option String` (a key is present iff the function returns
`some`); the `Set<string>` of cleared server errors is embedded as
`String → Bool`.  A thrown JavaScript exception is embedded as `Except.error`
with the thrown message.
-/

namespace FormLib

/-- JavaScript truthiness of a `string | null | undefined` value: `null`,
`undefined` and the empty string are falsy, every other string is truthy. -/
def truthy : Option String → Bool
  | none => false
  | some s => !s.isEmpty

/-- JavaScript `a || b` on `string | null | undefined` values: returns `a`
when `a` is truthy, otherwise `b`. -/
def jsOr (a b : Option String) : Option String :=
  if truthy a then a else b

/-- JavaScript `a ?? b` (nullish coalescing) on optional strings. -/
def jsNullish (a b : Option String) : Option String :=
  match a with
  | some v => some v
  | none => b

/-- A JavaScript line terminator, which the regex `.` does not match. -/
def isLineTerminator (c : Char) : Bool :=
  c = '\n' || c = '\r' || c.val = 0x2028 || c.val = 0x2029

/-- `fieldName.replace(/([A-Z])/g, ' $1')`: insert a space before every
ASCII capital letter. -/
def addSpaceBeforeCaps (s : String) : String :=
  String.mk (s.data.foldr (fun c acc => if c.isUpper then ' ' :: c :: acc else c :: acc) [])

/-- `.replace(/^./, str => str.toUpperCase())`: capitalize the first
character (the regex `.` does not match a line terminator). -/
def capitalizeFirst (s : String) : String :=
  match s.data with
  | [] => s
  | c :: rest => if isLineTerminator c then s else String.mk (c.toUpper :: rest)

/-- JavaScript whitespace as removed by `String.prototype.trim`: the ASCII
whitespace characters together with the common Unicode space code points. -/
def isJsWhitespace (c : Char) : Bool :=
  c = ' ' || c = '\t' || c = '\n' || c = '\r' || c.val = 0x0B || c.val = 0x0C ||
  c.val = 0xA0 || c.val = 0xFEFF || c.val = 0x2028 || c.val = 0x2029

/-- `.trim()`: drop JavaScript whitespace from both ends. -/
def jsTrim (s : String) : String :=
  String.mk (((s.data.dropWhile isJsWhitespace).reverse.dropWhile isJsWhitespace).reverse)

/-- `humanizeFieldName` from form-input: space out capitals, capitalize the
first letter, trim the result. -/
def humanizeFieldName (fieldName : String) : String :=
  jsTrim (capitalizeFirst (addSpaceBeforeCaps fieldName))

/-- A single zod field validator.  `parseResult v = none` means
`fieldSchema.parse(v)` succeeds; `parseResult v = some issues` means it throws
a `ZodError` carrying the given list of issue messages. -/
structure ZodField where
  parseResult : String → Option (List String)

/-- A zod object schema: its `shape` maps a field name to the field validator
when the field is declared, and is absent (`undefined`) otherwise. -/
structure ZodObjectSchema where
  shape : String → Option ZodField

/-- The record returned by `getFieldInfo`. -/
structure FieldInfo where
  name : String
  label : String
deriving Repr, DecidableEq

/-- `getFieldInfo(schema, fieldName)`: throws
`Field "<name>" not found in schema` when the field is absent from the
schema's shape, otherwise returns the field name together with its humanized
label. -/
def getFieldInfo (schema : ZodObjectSchema) (fieldName : String) : Except String FieldInfo :=
  match schema.shape fieldName with
  | none => Except.error ("Field \"" ++ fieldName ++ "\" not found in schema")
  | some _ => Except.ok { name := fieldName, label := humanizeFieldName fieldName }

/-- `error.issues[0]?.message || 'Invalid value'`: the first issue's message
when it is truthy, otherwise the fallback string. -/
def firstIssueMessage (issues : List String) : String :=
  match issues.head? with
  | none => "Invalid value"
  | some m => if m.isEmpty then "Invalid value" else m

/-- `validateField` from the `Form` component: with no schema, or with a
field name absent from the schema's shape, it returns `null`; otherwise it
parses the value with the field's validator and returns the first `ZodError`
issue message (or `'Invalid value'`) on failure, `null` on success. -/
def validateField (schema : Option ZodObjectSchema) (fieldName : String) (value : String) :
    Option String :=
  match schema with
  | none => none
  | some sch =>
    match sch.shape fieldName with
    | none => none
    | some fieldSchema =>
      match fieldSchema.parseResult value with
      | none => none
      | some issues => some (firstIssueMessage issues)

/-- The error-related state owned by one `Form` instance: the server field
errors (`state.fieldErrors || {}`), the client field errors and the set of
field names whose server error was dismissed by user interaction. -/
structure FormErrorState where
  fieldErrors : String → Option String
  clientFieldErrors : String → Option String
  clearedServerErrors : String → Bool

/-- The state a `Form` mounts with: `initialState = { success: false }` has no
field errors, and both client-side stores start empty. -/
def initialFormErrorState : FormErrorState :=
  { fieldErrors := fun _ => none
    clientFieldErrors := fun _ => none
    clearedServerErrors := fun _ => false }

/-- `clearFieldError(fieldName)`: delete the field from `clientFieldErrors`
and add it to `clearedServerErrors`. -/
def clearFieldError (s : FormErrorState) (fieldName : String) : FormErrorState :=
  { s with
    clientFieldErrors := fun m => if m = fieldName then none else s.clientFieldErrors m
    clearedServerErrors := fun m => s.clearedServerErrors m || m == fieldName }

/-- `setFieldError(fieldName, error)`: record the error under the field name
in `clientFieldErrors`, leaving everything else alone. -/
def setFieldError (s : FormErrorState) (fieldName error : String) : FormErrorState :=
  { s with
    clientFieldErrors := fun m => if m = fieldName then some error else s.clientFieldErrors m }

/-- A submission settling with a new `FormState`: the context exposes
`state.fieldErrors || {}`, and the effect keyed on `state.fieldErrors` resets
`clearedServerErrors` to the empty set whenever `state.fieldErrors` is truthy
(any object, even an empty one, is truthy). -/
def applyServerResult (s : FormErrorState) (fe : Option (String → Option String)) :
    FormErrorState :=
  { s with
    fieldErrors := fun n => (fe.getD fun _ => none) n
    clearedServerErrors := if fe.isSome then fun _ => false else s.clearedServerErrors }

/-- The blur handler shared by `FormInput`, `FormTextarea` and `FormSelect`:
validate the blurred value, then `setFieldError` when the result is truthy
and `clearFieldError` otherwise. -/
def handleBlur (schema : Option ZodObjectSchema) (s : FormErrorState)
    (name value : String) : FormErrorState :=
  match validateField schema name value with
  | none => clearFieldError s name
  | some err => if err.isEmpty then clearFieldError s name else setFieldError s name err

/-- The change handler of `FormInput` (and `FormTextarea`): when the field has
a truthy client or server error, re-validate and clear the error if the value
is now valid; otherwise leave the state alone. -/
def handleChange (schema : Option ZodObjectSchema) (s : FormErrorState)
    (name value : String) : FormErrorState :=
  if truthy (s.clientFieldErrors name) || truthy (s.fieldErrors name) then
    if truthy (validateField schema name value) then s else clearFieldError s name
  else s

/-- The per-field context value a `FormField` provides to `FormLabel`,
`FormControl` and `FormMessage`. -/
structure FormFieldContextValue where
  name : String
  fieldId : String
  hasError : Bool
  errorMessage : Option String
deriving Repr, DecidableEq

/-- The server error a `FormField` considers for display:
`clearedServerErrors.has(name) ? null : fieldErrors[name]`. -/
def serverErrorShown (s : FormErrorState) (name : String) : Option String :=
  if s.clearedServerErrors name then none else s.fieldErrors name

/-- The body of `FormField`: derive `fieldId` by concatenation, suppress a
cleared server error, merge with the client error via `||`, and provide the
resulting context value. -/
def formFieldContextValue (formId : String) (s : FormErrorState) (name : String) :
    FormFieldContextValue :=
  let fieldId := formId ++ "-" ++ name
  let errorMessage := jsOr (serverErrorShown s name) (s.clientFieldErrors name)
  { name := name
    fieldId := fieldId
    hasError := truthy errorMessage
    errorMessage := errorMessage }

/-- The `htmlFor` attribute `FormLabel` renders. -/
def labelHtmlFor (f : FormFieldContextValue) : String :=
  f.fieldId

/-- The attributes `FormControl` clones onto its child control. -/
structure ControlRender where
  id : String
  name : String
  ariaInvalid : String
  ariaDescribedby : Option String
deriving Repr, DecidableEq

/-- The body of `FormControl`. -/
def renderFormControl (f : FormFieldContextValue) : ControlRender :=
  { id := f.fieldId
    name := f.name
    ariaInvalid := if f.hasError then "true" else "false"
    ariaDescribedby := if f.hasError then some (f.fieldId ++ "-error") else none }

/-- The error paragraph `FormMessage` renders. -/
structure MessageRender where
  id : String
  content : String
deriving Repr, DecidableEq

/-- The body of `FormMessage`: render nothing when `hasError` is false or the
message is falsy, otherwise a paragraph with id `fieldId + "-error"` whose
content is the message. -/
def renderFormMessage (f : FormFieldContextValue) : Option MessageRender :=
  if !f.hasError then none
  else
    match f.errorMessage with
    | none => none
    | some m => if m.isEmpty then none else some { id := f.fieldId ++ "-error", content := m }

/-- The error string a field displays, if any. -/
def displayedMessage (f : FormFieldContextValue) : Option String :=
  (renderFormMessage f).map fun m => m.content

/-- The form-level context value (the three callback closures are embedded as
the standalone state-transition functions above). -/
structure FormContextValue where
  fieldErrors : String → Option String
  formError : Option String
  isSubmitting : Bool
  formId : String
  schema : Option ZodObjectSchema
  formData : Option (String → Option String)
  clientFieldErrors : String → Option String
  clearedServerErrors : String → Bool

/-- `useFormContext`: reading the form context outside a `Form` provider
(`useContext` returns `null`) throws. -/
def useFormContext (ctx : Option FormContextValue) : Except String FormContextValue :=
  match ctx with
  | none => Except.error "useFormContext must be used within a Form component"
  | some c => Except.ok c

/-- `useFormField`: reading the field context outside a `FormField` provider
throws. -/
def useFormField (fctx : Option FormFieldContextValue) : Except String FormFieldContextValue :=
  match fctx with
  | none => Except.error "useFormField must be used within a FormField component"
  | some c => Except.ok c

/-- The props accepted by `FormInput`, covering its three overlapping shapes
(`FormInputPropsOriginal`, `FormInputPropsSchema`, `FormInputPropsContext`).
A JavaScript key that is absent from the object is `none`; the remaining
pass-through input attributes are not modelled. -/
structure FormInputPropsR where
  nameProp : Option String
  schemaProp : Option ZodObjectSchema
  fieldProp : Option String
  labelProp : Option String
  descriptionProp : Option String
  requiredProp : Option Bool

/-- `isSchemaProps`: `'schema' in props && 'field' in props`. -/
def isSchemaProps (p : FormInputPropsR) : Bool :=
  p.schemaProp.isSome && p.fieldProp.isSome

/-- `isContextProps`: `'field' in props && !('name' in props) && !('schema' in props)`. -/
def isContextProps (p : FormInputPropsR) : Bool :=
  p.fieldProp.isSome && !p.nameProp.isSome && !p.schemaProp.isSome

/-- The single resolved prop shape (`FormInputPropsResolved`) every input
component normalizes to.  `nameProp` stays optional because the original-API
branch passes the props through unchecked. -/
structure ResolvedProps where
  nameProp : Option String
  labelProp : Option String
  descriptionProp : Option String
  requiredProp : Option Bool
deriving Repr

/-- Build the resolved record of the schema and context branches:
`{ name: schemaInfo.name, label: props.label ?? schemaInfo.label,`
`required: props.required, ...restProps }` (the later spread re-asserts the
same `label` and `required` values when those keys are present). -/
def resolveWithFieldInfo (p : FormInputPropsR) (info : FieldInfo) : ResolvedProps :=
  { nameProp := some info.name
    labelProp := jsNullish p.labelProp (some info.label)
    descriptionProp := p.descriptionProp
    requiredProp := p.requiredProp }

/-- The prop-resolution IIFE of `FormInput`: the schema branch when
`isSchemaProps`, else the context branch when `isContextProps` (throwing when
the form context has no schema), else the original props unchanged. -/
def resolveFormInput (ctxSchema : Option ZodObjectSchema) (p : FormInputPropsR) :
    Except String ResolvedProps :=
  match p.schemaProp, p.fieldProp, p.nameProp with
  | some sch, some fld, _ =>
    (getFieldInfo sch fld).map fun info => resolveWithFieldInfo p info
  | none, some fld, none =>
    match ctxSchema with
    | none =>
      Except.error ("FormInput with field \"" ++ fld ++
        "\" requires either a schema prop or schema in Form context")
    | some sch => (getFieldInfo sch fld).map fun info => resolveWithFieldInfo p info
  | _, _, _ =>
    Except.ok { nameProp := p.nameProp, labelProp := p.labelProp
                descriptionProp := p.descriptionProp, requiredProp := p.requiredProp }

/-- The props accepted by `FormTextarea`, `FormSelect`, `FormRadioGroup` and
`FormCheckbox`: an explicit `name` or a context `field` (these components
have no direct-schema shape; their `options` and other pass-through
attributes are not modelled). -/
structure NamedFieldProps where
  nameProp : Option String
  fieldProp : Option String
  labelProp : Option String
  descriptionProp : Option String
  requiredProp : Option Bool

/-- Lift a `NamedFieldProps` into the `FormInput` prop shape (no schema key). -/
def NamedFieldProps.toInputProps (p : NamedFieldProps) : FormInputPropsR :=
  { nameProp := p.nameProp, schemaProp := none, fieldProp := p.fieldProp
    labelProp := p.labelProp, descriptionProp := p.descriptionProp
    requiredProp := p.requiredProp }

/-- The resolved record shared by the context branches of `FormTextarea`,
`FormSelect` and `FormRadioGroup`. -/
def resolveNamedWithFieldInfo (p : NamedFieldProps) (info : FieldInfo) : ResolvedProps :=
  { nameProp := some info.name
    labelProp := jsNullish p.labelProp (some info.label)
    descriptionProp := p.descriptionProp
    requiredProp := p.requiredProp }

/-- The pass-through original-API resolution used by all four components. -/
def resolveNamedOriginal (p : NamedFieldProps) : ResolvedProps :=
  { nameProp := p.nameProp, labelProp := p.labelProp
    descriptionProp := p.descriptionProp, requiredProp := p.requiredProp }

/-- The prop-resolution IIFE of `FormTextarea`: the context branch requires a
schema in the form context and throws otherwise. -/
def resolveFormTextarea (ctxSchema : Option ZodObjectSchema) (p : NamedFieldProps) :
    Except String ResolvedProps :=
  match p.fieldProp, p.nameProp with
  | some fld, none =>
    match ctxSchema with
    | none =>
      Except.error ("FormTextarea with field \"" ++ fld ++ "\" requires schema in Form context")
    | some sch => (getFieldInfo sch fld).map fun info => resolveNamedWithFieldInfo p info
  | _, _ => Except.ok (resolveNamedOriginal p)

/-- The prop-resolution IIFE of `FormSelect`. -/
def resolveFormSelect (ctxSchema : Option ZodObjectSchema) (p : NamedFieldProps) :
    Except String ResolvedProps :=
  match p.fieldProp, p.nameProp with
  | some fld, none =>
    match ctxSchema with
    | none =>
      Except.error ("FormSelect with field \"" ++ fld ++ "\" requires schema in Form context")
    | some sch => (getFieldInfo sch fld).map fun info => resolveNamedWithFieldInfo p info
  | _, _ => Except.ok (resolveNamedOriginal p)

/-- The prop-resolution IIFE of `FormRadioGroup`. -/
def resolveFormRadioGroup (ctxSchema : Option ZodObjectSchema) (p : NamedFieldProps) :
    Except String ResolvedProps :=
  match p.fieldProp, p.nameProp with
  | some fld, none =>
    match ctxSchema with
    | none =>
      Except.error ("FormRadioGroup with field \"" ++ fld ++ "\" requires schema in Form context")
    | some sch => (getFieldInfo sch fld).map fun info => resolveNamedWithFieldInfo p info
  | _, _ => Except.ok (resolveNamedOriginal p)

/-- The prop-resolution IIFE of `FormCheckbox`: the context branch takes the
name directly from the `field` string (`{ name: field, ...restProps }`),
consulting neither the form context's schema nor `getFieldInfo`, so it is a
total function with no throwing path. -/
def resolveFormCheckbox (p : NamedFieldProps) : ResolvedProps :=
  match p.fieldProp, p.nameProp with
  | some fld, none =>
    { nameProp := some fld, labelProp := p.labelProp
      descriptionProp := p.descriptionProp, requiredProp := p.requiredProp }
  | _, _ => resolveNamedOriginal p

/-! Concrete fixtures used by witnesses and counterexamples: a schema with a
single `email` field whose validator accepts exactly `ok@example.com`, and a
server result reporting an error on `email`. -/

/-- A zod field validator for `email`: parsing succeeds only on
`ok@example.com`, otherwise it throws a `ZodError` with one issue. -/
def emailZodField : ZodField :=
  { parseResult := fun v => if v = "ok@example.com" then none else some ["Too short"] }

/-- A schema whose shape declares exactly the field `email`. -/
def sampleSchema : ZodObjectSchema :=
  { shape := fun n => if n = "email" then some emailZodField else none }

/-- A server `fieldErrors` record reporting `Required` on `email`. -/
def serverEmailErrors : String → Option String :=
  fun n => if n = "email" then some "Required" else none

/-- The form state after a submission settles with a server error on
`email`. -/
def afterServerError : FormErrorState :=
  applyServerResult initialFormErrorState (some serverEmailErrors)

/-- The form state after the user then blurs `email` with the still-invalid
value `bad`: the blur handler validates, gets `Too short`, and calls
`setFieldError`. -/
def blurredWhileServerError : FormErrorState :=
  handleBlur (some sampleSchema) afterServerError "email" "bad"

/-- Context-only `FormInput` props: `{ field }` with no `name` and no
`schema`. -/
def ctxOnlyInputProps (f : String) : FormInputPropsR :=
  { nameProp := none, schemaProp := none, fieldProp := some f
    labelProp := none, descriptionProp := none, requiredProp := none }

/-- Context-only props for the other field components: `{ field }` with no
`name`. -/
def ctxOnlyNamedProps (f : String) : NamedFieldProps :=
  { nameProp := none, fieldProp := some f, labelProp := none
    descriptionProp := none, requiredProp := none }

/-! Helper lemmas shared by the claim theorems. -/

/-- The fallback `error.issues[0]?.message || 'Invalid value'` is never the
empty string. -/
theorem firstIssueMessage_isEmpty_false (issues : List String) :
    (firstIssueMessage issues).isEmpty = false := by
  unfold firstIssueMessage
  cases issues.head? with
  | none => rfl
  | some m =>
    cases hm : m.isEmpty with
    | true => simp only [hm, if_true]; rfl
    | false => simp [hm]

/-- An error message returned by `validateField` is never the empty string. -/
theorem validateField_isEmpty_false {schema : Option ZodObjectSchema} {n v err : String}
    (h : validateField schema n v = some err) : err.isEmpty = false := by
  cases schema with
  | none => simp [validateField] at h
  | some sch =>
    cases hs : sch.shape n with
    | none => simp [validateField, hs] at h
    | some fs =>
      cases hp : fs.parseResult v with
      | none => simp [validateField, hs, hp] at h
      | some issues =>
        simp only [validateField, hs, hp, Option.some.injEq] at h
        rw [← h]
        exact firstIssueMessage_isEmpty_false issues

/-- Truthiness of an absent value. -/
theorem truthy_none : truthy none = false := rfl

/-- Truthiness of a present string. -/
theorem truthy_some (s : String) : truthy (some s) = !s.isEmpty := rfl

/-- A `string | null | undefined` value is truthy exactly when it is a
nonempty string. -/
theorem truthy_eq_true_iff (o : Option String) :
    truthy o = true ↔ ∃ s, o = some s ∧ s.isEmpty = false := by
  cases o with
  | none => simp [truthy]
  | some s => simp [truthy]

/-! Claim theorems. -/

/-- C1: counterexample.  The server and client field-error maps are not
mutually exclusive per field name: after a submission settles with the server
error `Required` on `email` and the user then blurs `email` with the invalid
value `bad`, the blur handler records the client error `Too short` while the
uncleared server entry remains, so `email` has a (truthy) entry in both maps
in the same render. -/
theorem clientAndServerErrorMapsOverlap :
    blurredWhileServerError.fieldErrors "email" = some "Required" ∧
    blurredWhileServerError.clientFieldErrors "email" = some "Too short" ∧
    blurredWhileServerError.clearedServerErrors "email" = false := by
  refine ⟨rfl, rfl, rfl⟩

/-- C1 (amended): per render the two error sources are exclusive in what they
display, not as maps: a field's rendered error message is drawn from exactly
one source, the uncleared server entry when it is truthy, otherwise the
client entry — even when the field has an entry in both maps. -/
theorem displayedErrorHasSingleSource (formId : String) (s : FormErrorState) (name : String) :
    (truthy (serverErrorShown s name) = true →
      (formFieldContextValue formId s name).errorMessage = serverErrorShown s name) ∧
    (truthy (serverErrorShown s name) = false →
      (formFieldContextValue formId s name).errorMessage = s.clientFieldErrors name) := by
  constructor <;> intro h <;> simp [formFieldContextValue, jsOr, h]

/-- C1 (amended) witness: in the overlapping state reached above, the render
of `email` shows the server error `Required`, not the client entry. -/
theorem displayedErrorHasSingleSourceWitness :
    (formFieldContextValue "form1" blurredWhileServerError "email").errorMessage =
      serverErrorShown blurredWhileServerError "email" :=
  (displayedErrorHasSingleSource "form1" blurredWhileServerError "email").1 (by decide)

/-- C2: when a field has a truthy client or server error and its change
handler runs with a value the schema validates (validateField returns null),
the field's error is cleared: the entry leaves `clientFieldErrors`, the name
enters `clearedServerErrors`, and `FormField` no longer shows the server
error (nor any error) for the field. -/
theorem changeToValidValueClearsFieldError (schema : Option ZodObjectSchema)
    (s : FormErrorState) (n v fid : String)
    (hhas : truthy (s.clientFieldErrors n) = true ∨ truthy (s.fieldErrors n) = true)
    (hvalid : validateField schema n v = none) :
    (handleChange schema s n v).clientFieldErrors n = none ∧
    (handleChange schema s n v).clearedServerErrors n = true ∧
    serverErrorShown (handleChange schema s n v) n = none ∧
    (formFieldContextValue fid (handleChange schema s n v) n).errorMessage = none := by
  have hg : (truthy (s.clientFieldErrors n) || truthy (s.fieldErrors n)) = true := by
    rcases hhas with h | h <;> simp [h]
  have hstep : handleChange schema s n v = clearFieldError s n := by
    unfold handleChange
    rw [hg, hvalid]
    rfl
  rw [hstep]
  simp [clearFieldError, serverErrorShown, formFieldContextValue, jsOr, truthy]

/-- C2 witness: with the server error `Required` on `email`, editing the
field to the valid value `ok@example.com` clears everything. -/
theorem changeToValidValueClearsFieldErrorWitness :
    (handleChange (some sampleSchema) afterServerError "email" "ok@example.com").clientFieldErrors
        "email" = none ∧
    (handleChange (some sampleSchema) afterServerError "email"
        "ok@example.com").clearedServerErrors "email" = true ∧
    serverErrorShown (handleChange (some sampleSchema) afterServerError "email" "ok@example.com")
        "email" = none ∧
    (formFieldContextValue "form1"
        (handleChange (some sampleSchema) afterServerError "email" "ok@example.com")
        "email").errorMessage = none :=
  changeToValidValueClearsFieldError (some sampleSchema) afterServerError "email"
    "ok@example.com" "form1" (Or.inr (by decide)) (by decide)

/-- C3: counterexample.  Not every schema-field lookup of an undefined field
throws: `validateField` on the field `nickname`, which is absent from the
schema's shape, returns normally with `null` (its guard is
`if (!fieldSchema) return null`), whereas `getFieldInfo` throws at the very
same input. -/
theorem validateFieldMissingFieldReturnsNull :
    validateField (some sampleSchema) "nickname" "x" = none ∧
    (getFieldInfo sampleSchema "nickname").isOk = false := by
  refine ⟨rfl, rfl⟩

/-- C3 (amended): programmer misuse raises a synchronous exception in the
hooks and in every component-side field lookup — `useFormContext` and
`useFormField` throw outside their providers, and `getFieldInfo` (hence the
schema/context prop resolution of `FormInput`, `FormTextarea`, `FormSelect`
and `FormRadioGroup`) throws for a field absent from the schema's shape —
but `validateField` returns `null` for such a field instead of throwing. -/
theorem programmerMisuseThrows (sch : ZodObjectSchema) (f v : String)
    (hmissing : sch.shape f = none) :
    (useFormContext none).isOk = false ∧
    (useFormField none).isOk = false ∧
    (getFieldInfo sch f).isOk = false ∧
    (resolveFormInput (some sch) (ctxOnlyInputProps f)).isOk = false ∧
    (resolveFormTextarea (some sch) (ctxOnlyNamedProps f)).isOk = false ∧
    (resolveFormSelect (some sch) (ctxOnlyNamedProps f)).isOk = false ∧
    (resolveFormRadioGroup (some sch) (ctxOnlyNamedProps f)).isOk = false ∧
    validateField (some sch) f v = none := by
  simp [useFormContext, useFormField, getFieldInfo, hmissing, resolveFormInput,
    resolveFormTextarea, resolveFormSelect, resolveFormRadioGroup, validateField,
    ctxOnlyInputProps, ctxOnlyNamedProps, Except.isOk, Except.toBool, Except.map]

/-- C3 (amended) witness: at the concrete schema with only `email`, looking
up `nickname` throws everywhere except in `validateField`. -/
theorem programmerMisuseThrowsWitness :
    (useFormContext none).isOk = false ∧
    (useFormField none).isOk = false ∧
    (getFieldInfo sampleSchema "nickname").isOk = false ∧
    (resolveFormInput (some sampleSchema) (ctxOnlyInputProps "nickname")).isOk = false ∧
    (resolveFormTextarea (some sampleSchema) (ctxOnlyNamedProps "nickname")).isOk = false ∧
    (resolveFormSelect (some sampleSchema) (ctxOnlyNamedProps "nickname")).isOk = false ∧
    (resolveFormRadioGroup (some sampleSchema) (ctxOnlyNamedProps "nickname")).isOk = false ∧
    validateField (some sampleSchema) "nickname" "x" = none :=
  programmerMisuseThrows sampleSchema "nickname" "x" rfl

/-- C4: the per-field message `FormMessage` displays is the merge of the two
sources — the server error string when the field has a (nonempty) server
error not dismissed in `clearedServerErrors`, otherwise the (nonempty)
client error string when one exists, otherwise nothing is rendered.  A
nonempty entry is what the code treats as an existing error: both sources
are read through JavaScript truthiness, under which an empty-string entry
counts as no error. -/
theorem formMessageMergesServerAndClient (fid : String) (s : FormErrorState) (n : String) :
    (∀ e, serverErrorShown s n = some e → e.isEmpty = false →
      displayedMessage (formFieldContextValue fid s n) = some e) ∧
    (truthy (serverErrorShown s n) = false → ∀ e, s.clientFieldErrors n = some e →
      e.isEmpty = false → displayedMessage (formFieldContextValue fid s n) = some e) ∧
    (truthy (serverErrorShown s n) = false → truthy (s.clientFieldErrors n) = false →
      displayedMessage (formFieldContextValue fid s n) = none) := by
  refine ⟨?_, ?_, ?_⟩
  · intro e he hne
    simp [displayedMessage, renderFormMessage, formFieldContextValue, jsOr, truthy_some,
      he, hne]
  · intro hs e he hne
    simp [displayedMessage, renderFormMessage, formFieldContextValue, jsOr, truthy_some,
      hs, he, hne]
  · intro hs hc
    simp [displayedMessage, renderFormMessage, formFieldContextValue, jsOr, hs, hc]

/-- C4 witness: with an undismissed server error `Required` on `email` and
no client error, the rendered message is `Required`. -/
theorem formMessageMergesServerAndClientWitness :
    displayedMessage (formFieldContextValue "form1" afterServerError "email") =
      some "Required" :=
  (formMessageMergesServerAndClient "form1" afterServerError "email").1 "Required"
    (by decide) (by decide)

/-- C5: `FormInput` prop resolution over the three accepted shapes yields a
single resolved shape with a concrete string name: the schema+field and
context-only shapes resolve the name to the field key and let the label
default to the humanized field name (`props.label ?? schemaInfo.label`),
while the explicit-name shape passes the props through unchanged. -/
theorem formInputPropResolution (ctxSchema : Option ZodObjectSchema) (sch : ZodObjectSchema)
    (p : FormInputPropsR) (fld : String) :
    (p.schemaProp = some sch → p.fieldProp = some fld → (sch.shape fld).isSome = true →
      resolveFormInput ctxSchema p = Except.ok
        { nameProp := some fld
          labelProp := jsNullish p.labelProp (some (humanizeFieldName fld))
          descriptionProp := p.descriptionProp
          requiredProp := p.requiredProp }) ∧
    (p.schemaProp = none → p.nameProp = none → p.fieldProp = some fld →
      ctxSchema = some sch → (sch.shape fld).isSome = true →
      resolveFormInput ctxSchema p = Except.ok
        { nameProp := some fld
          labelProp := jsNullish p.labelProp (some (humanizeFieldName fld))
          descriptionProp := p.descriptionProp
          requiredProp := p.requiredProp }) ∧
    (p.fieldProp = none →
      resolveFormInput ctxSchema p = Except.ok
        { nameProp := p.nameProp, labelProp := p.labelProp
          descriptionProp := p.descriptionProp, requiredProp := p.requiredProp }) := by
  refine ⟨?_, ?_, ?_⟩
  · intro hsch hfld hshape
    obtain ⟨fs, hfs⟩ := Option.isSome_iff_exists.mp hshape
    rcases p with ⟨np, sp, fp, lp, dp, rp⟩
    subst hsch
    subst hfld
    simp [resolveFormInput, getFieldInfo, hfs, resolveWithFieldInfo, Except.map]
  · intro hsch hname hfld hctx hshape
    obtain ⟨fs, hfs⟩ := Option.isSome_iff_exists.mp hshape
    rcases p with ⟨np, sp, fp, lp, dp, rp⟩
    subst hsch
    subst hname
    subst hfld
    subst hctx
    simp [resolveFormInput, getFieldInfo, hfs, resolveWithFieldInfo, Except.map]
  · intro hfld
    rcases p with ⟨np, sp, fp, lp, dp, rp⟩
    subst hfld
    cases sp <;> cases np <;> rfl

/-- C5 witness: context-only props `{ field: "emailAddress" }` resolve,
under a context schema declaring `emailAddress`, to the name
`emailAddress` and the humanized default label `Email Address`. -/
theorem formInputPropResolutionWitness :
    resolveFormInput (some { shape := fun n =>
        if n = "emailAddress" then some emailZodField else none })
      (ctxOnlyInputProps "emailAddress") =
    Except.ok { nameProp := some "emailAddress", labelProp := some "Email Address"
                descriptionProp := none, requiredProp := none } := by
  have h := (formInputPropResolution
    (some { shape := fun n => if n = "emailAddress" then some emailZodField else none })
    { shape := fun n => if n = "emailAddress" then some emailZodField else none }
    (ctxOnlyInputProps "emailAddress") "emailAddress").2.1 rfl rfl rfl rfl rfl
  rw [h]
  rfl

/-- C6: the blur handler validates the blurred value against the schema and
updates error state by the result: it records the client error exactly when
`validateField` returns an error string, clears the field's error when
`validateField` returns `null`, and with no schema configured `validateField`
returns `null`, so blur never sets an error. -/
theorem blurValidatesAndUpdatesErrors (schema : Option ZodObjectSchema) (s : FormErrorState)
    (n v : String) :
    (∀ err, validateField schema n v = some err →
      (handleBlur schema s n v).clientFieldErrors n = some err) ∧
    (validateField schema n v = none →
      (handleBlur schema s n v).clientFieldErrors n = none ∧
      (handleBlur schema s n v).clearedServerErrors n = true) ∧
    (schema = none → validateField schema n v = none ∧
      (handleBlur schema s n v).clientFieldErrors n = none) := by
  refine ⟨?_, ?_, ?_⟩
  · intro err h
    have hne := validateField_isEmpty_false h
    simp [handleBlur, h, hne, setFieldError]
  · intro h
    simp [handleBlur, h, clearFieldError]
  · intro h
    subst h
    simp [handleBlur, validateField, clearFieldError]

/-- C6 witness: blurring `email` with the invalid value `bad` records the
client error `Too short`. -/
theorem blurValidatesAndUpdatesErrorsWitness :
    (handleBlur (some sampleSchema) initialFormErrorState "email" "bad").clientFieldErrors
      "email" = some "Too short" :=
  (blurValidatesAndUpdatesErrors (some sampleSchema) initialFormErrorState "email" "bad").1
    "Too short" rfl

/-- The field id a `FormField` derives. -/
theorem formFieldContextValue_fieldId (fid : String) (s : FormErrorState) (n : String) :
    (formFieldContextValue fid s n).fieldId = fid ++ "-" ++ n := rfl

/-- When a `FormField`-built context value reports an error, `FormMessage`
renders a paragraph whose id is `fieldId + "-error"`. -/
theorem renderFormMessage_of_hasError (fid : String) (s : FormErrorState) (n : String)
    (h : (formFieldContextValue fid s n).hasError = true) :
    ∃ m, renderFormMessage (formFieldContextValue fid s n) = some m ∧
      m.id = (formFieldContextValue fid s n).fieldId ++ "-error" := by
  have h' : truthy (formFieldContextValue fid s n).errorMessage = true := h
  obtain ⟨e, he, hne⟩ := (truthy_eq_true_iff _).mp h'
  refine ⟨⟨(formFieldContextValue fid s n).fieldId ++ "-error", e⟩, ?_, rfl⟩
  simp [renderFormMessage, h, he, hne]

/-- C7: the field identity is `formId + "-" + name` by string concatenation;
the label's `htmlFor` equals the control's `id`; and the control's
`aria-describedby` together with the rendered error element's id equal
`fieldId + "-error"` exactly when the field has an error. -/
theorem fieldIdentityDeterministic (fid : String) (s : FormErrorState) (n : String) :
    (formFieldContextValue fid s n).fieldId = fid ++ "-" ++ n ∧
    labelHtmlFor (formFieldContextValue fid s n) =
      (renderFormControl (formFieldContextValue fid s n)).id ∧
    ((formFieldContextValue fid s n).hasError = true →
      (renderFormControl (formFieldContextValue fid s n)).ariaDescribedby =
        some (fid ++ "-" ++ n ++ "-error") ∧
      ∃ m, renderFormMessage (formFieldContextValue fid s n) = some m ∧
        m.id = fid ++ "-" ++ n ++ "-error") ∧
    ((formFieldContextValue fid s n).hasError = false →
      (renderFormControl (formFieldContextValue fid s n)).ariaDescribedby = none ∧
      renderFormMessage (formFieldContextValue fid s n) = none) := by
  refine ⟨rfl, rfl, ?_, ?_⟩
  · intro h
    refine ⟨by simp [renderFormControl, h, formFieldContextValue_fieldId], ?_⟩
    have hm := renderFormMessage_of_hasError fid s n h
    rw [formFieldContextValue_fieldId] at hm
    exact hm
  · intro h
    exact ⟨by simp [renderFormControl, h], by simp [renderFormMessage, h]⟩

/-- C7 witness: for the form id `form1` and field `email` carrying an error,
all three identities line up concretely. -/
theorem fieldIdentityDeterministicWitness :
    (formFieldContextValue "form1" afterServerError "email").fieldId = "form1-email" ∧
    (renderFormControl (formFieldContextValue "form1" afterServerError "email")).ariaDescribedby
      = some "form1-email-error" := by
  have h := fieldIdentityDeterministic "form1" afterServerError "email"
  exact ⟨h.1, (h.2.2.1 (by decide)).1⟩

/-- C9: `FormCheckbox` in context mode resolves the name directly from the
`field` string with no schema lookup, so it is total and succeeds with no
schema configured, while the context modes of `FormInput`, `FormTextarea`,
`FormSelect` and `FormRadioGroup` all throw when the form context has no
schema. -/
theorem checkboxContextModeNeedsNoSchema (p : NamedFieldProps) (fld : String)
    (hf : p.fieldProp = some fld) (hn : p.nameProp = none) :
    (resolveFormCheckbox p).nameProp = some fld ∧
    (resolveFormInput none p.toInputProps).isOk = false ∧
    (resolveFormTextarea none p).isOk = false ∧
    (resolveFormSelect none p).isOk = false ∧
    (resolveFormRadioGroup none p).isOk = false := by
  rcases p with ⟨np, fp, lp, dp, rp⟩
  subst hf
  subst hn
  exact ⟨rfl, rfl, rfl, rfl, rfl⟩

/-- C9 witness: context-mode checkbox props `{ field: "terms" }` resolve to
the name `terms` with no schema anywhere, while every other field component
rejects the same situation. -/
theorem checkboxContextModeNeedsNoSchemaWitness :
    (resolveFormCheckbox (ctxOnlyNamedProps "terms")).nameProp = some "terms" ∧
    (resolveFormInput none (ctxOnlyNamedProps "terms").toInputProps).isOk = false ∧
    (resolveFormTextarea none (ctxOnlyNamedProps "terms")).isOk = false ∧
    (resolveFormSelect none (ctxOnlyNamedProps "terms")).isOk = false ∧
    (resolveFormRadioGroup none (ctxOnlyNamedProps "terms")).isOk = false :=
  checkboxContextModeNeedsNoSchema (ctxOnlyNamedProps "terms") "terms" rfl rfl

/-- C10: frame conditions of the two error setters — `clearFieldError`
touches only the named field's client entry, always adds the name to
`clearedServerErrors` (even with no server error present, since the addition
is unconditional in the state), and leaves every other field alone;
`setFieldError` changes no other client entry and never touches
`clearedServerErrors`; neither touches the server error map. -/
theorem errorSettersFrameConditions (s : FormErrorState) (n e : String) :
    (∀ m, m ≠ n → (clearFieldError s n).clientFieldErrors m = s.clientFieldErrors m) ∧
    (clearFieldError s n).clearedServerErrors n = true ∧
    (∀ m, m ≠ n → (clearFieldError s n).clearedServerErrors m = s.clearedServerErrors m) ∧
    (clearFieldError s n).fieldErrors = s.fieldErrors ∧
    (∀ m, m ≠ n → (setFieldError s n e).clientFieldErrors m = s.clientFieldErrors m) ∧
    (setFieldError s n e).clearedServerErrors = s.clearedServerErrors ∧
    (setFieldError s n e).fieldErrors = s.fieldErrors := by
  refine ⟨?_, ?_, ?_, rfl, ?_, rfl, rfl⟩
  · intro m hm
    simp [clearFieldError, hm]
  · simp [clearFieldError]
  · intro m hm
    simp [clearFieldError, hm]
  · intro m hm
    simp [setFieldError, hm]

/-- C10 witness: clearing `email` leaves `password` alone and marks `email`
cleared even though `password` never had an error; setting an error keeps
the cleared set intact. -/
theorem errorSettersFrameConditionsWitness :
    (clearFieldError afterServerError "email").clientFieldErrors "password" =
      afterServerError.clientFieldErrors "password" ∧
    (clearFieldError afterServerError "email").clearedServerErrors "email" = true ∧
    (setFieldError afterServerError "email" "Too short").clearedServerErrors =
      afterServerError.clearedServerErrors := by
  have h := errorSettersFrameConditions afterServerError "email" "Too short"
  exact ⟨h.1 "password" (by decide), h.2.1, h.2.2.2.2.2.1⟩

end FormLib
